import Mathlib

/-!
Verification development for the `curioswitch/cdktf-constructs` composition
layer.  The TypeScript constructs (`Bootstrap`, `GcpProject`,
`GitHubRepository`, `CurioStack`, `CurioStackService`, `CurioStackHosting`)
are shallowly embedded as pure Lean functions from configuration records to
lists of resource declarations.  JavaScript runtime behaviour that the
constructs rely on (string `split`/`includes`/`replace`, object spread,
array `push` aliasing, property access on instances) is modelled explicitly.
-/

/-! ## JavaScript string primitives -/

/-- JS `String.prototype.split(sep)` for a single-character separator,
on the character-list level: splits into the (always non-empty) list of
separator-free segments. -/
def splitChar (sep : Char) : List Char → List (List Char)
  | [] => [[]]
  | c :: cs =>
    match splitChar sep cs with
    | [] => []
    | h :: t => if c = sep then [] :: h :: t else (c :: h) :: t

/-- JS `s.split(sep)[i]`: `none` models the JS `undefined` obtained when the
index is out of range. -/
def jsSplitIdx (sep : Char) (s : String) (i : Nat) : Option String :=
  ((splitChar sep s.toList).get? i).map (fun l => ⟨l⟩)

/-- JS `s.includes("-")`: for the single-character needle used by the code
this is exactly membership of the character. -/
def jsIncludesDash (s : String) : Bool := s.toList.contains '-'

/-- JS `s.replace(" ", "-")`: a string pattern replaces only the first
occurrence. -/
def jsReplaceFirstSpace : List Char → List Char
  | [] => []
  | c :: cs => if c = ' ' then '-' :: cs else c :: jsReplaceFirstSpace cs

/-- JS `s.replaceAll(".", "-")` for the single-character pattern used by
`Bootstrap`: every `.` becomes `-`. -/
def jsReplaceAllDots (s : String) : String :=
  ⟨s.toList.map (fun c => if c = '.' then '-' else c)⟩

/-- JS falsiness of an optional string (`!x`): true for `undefined` and for
the empty string. -/
def jsFalsyStr : Option String → Bool
  | none => true
  | some s => s == ""

/-- The plain-text segment of a project id between the first `-` and the
next `-` (or the end).  This is the independent characterisation used to
state what `split("-")[1]` computes. -/
def secondDashSegment (s : String) : String :=
  ⟨((s.toList.dropWhile (fun c => c ≠ '-')).tail).takeWhile (fun c => c ≠ '-')⟩

/-! ## Configuration values

Configuration records passed to terraform resources are modelled as JSON-like
trees.  A `ref` node is a deferred reference (a cdktf token such as
`this.project.projectId`): it names the producing declaration by its
construct path and the referenced output attribute. -/

mutual

inductive JsValue where
  | str : String → JsValue
  | num : Int → JsValue
  | boolean : Bool → JsValue
  | undef : JsValue
  | ref : List String → String → JsValue
  | interp : JsArr → JsValue
  | arr : JsArr → JsValue
  | obj : JsObj → JsValue

inductive JsArr where
  | nil : JsArr
  | cons : JsValue → JsArr → JsArr

inductive JsObj where
  | nil : JsObj
  | cons : String → JsValue → JsObj → JsObj

end

def JsArr.ofList : List JsValue → JsArr
  | [] => .nil
  | v :: vs => .cons v (JsArr.ofList vs)

def JsObj.ofList : List (String × JsValue) → JsObj
  | [] => .nil
  | (k, v) :: rest => .cons k v (JsObj.ofList rest)

/-- Property lookup on a declaration's config object. -/
def jsObjLookup : JsObj → String → Option JsValue
  | .nil, _ => none
  | .cons k v rest, key => if k == key then some v else jsObjLookup rest key

mutual

/-- All deferred references (producer construct paths) embedded anywhere in
a configuration value. -/
def refsOf : JsValue → List (List String)
  | .str _ => []
  | .num _ => []
  | .boolean _ => []
  | .undef => []
  | .ref p _ => [p]
  | .interp a => refsOfArr a
  | .arr a => refsOfArr a
  | .obj o => refsOfJsObj o

def refsOfArr : JsArr → List (List String)
  | .nil => []
  | .cons v rest => refsOf v ++ refsOfArr rest

def refsOfJsObj : JsObj → List (List String)
  | .nil => []
  | .cons _ v rest => refsOf v ++ refsOfJsObj rest

end

/-- JS object spread `{...defaults, ...override}` on the association-list
level: a key supplied by `override` replaces the default entirely (no deep
merge); keys not supplied keep the default.  Represented with the overridden
defaults filtered out, which is lookup-equivalent to the JS result. -/
def jsSpread (defaults override : List (String × JsValue)) :
    List (String × JsValue) :=
  defaults.filter (fun p => (override.lookup p.1).isNone) ++ override

/-! ## Resource declarations and the dependency-edge builder -/

/-- One resource declaration: the construct path of its logical id, the
resource kind, its configuration record, and the construct paths listed in
its explicit `dependsOn` meta-argument. -/
structure Decl where
  path : List String
  kind : String
  config : JsObj
  dependsOn : List (List String) := []

/-- The dependency edges contributed by a single declaration: one edge from
every deferred reference embedded in its config, plus one edge per explicit
`dependsOn` entry.  Edges are `(producer, consumer)` pairs. -/
def declEdgeList (d : Decl) : List (List String × List String) :=
  (refsOfJsObj d.config).map (fun p => (p, d.path)) ++
    d.dependsOn.map (fun p => (p, d.path))

/-- Modelled from the spec: the Dependency Graph Builder of §4.4 (the edge
accumulation lives in the external cdktf engine, not under `src/`).  The
finalized edge set of a declaration list contains, for every declaration,
an edge from each referenced producer and each explicit dependency to that
declaration. -/
def declEdges (decls : List Decl) : List (List String × List String) :=
  decls.flatMap declEdgeList

/-- `ord` is a topological order for the edge set `es`: every edge's
producer appears strictly before its consumer. -/
def IsTopoOrder (ord : List (List String))
    (es : List (List String × List String)) : Prop :=
  ∀ e ∈ es, ord.indexOf e.1 < ord.indexOf e.2

/-! ## GitHubRepository (`src/github-repository/index.ts`) -/

structure GitHubRepositoryConfig where
  name : String
  adminTeam : Option JsValue := none
  repositoryConfig : List (String × JsValue) := []
  mainRulesetConfig : List (String × JsValue) := []
  releaseRulesetConfig : List (String × JsValue) := []
  devEnvironmentConfig : List (String × JsValue) := []
  devViewerEnvironmentConfig : List (String × JsValue) := []
  prodEnvironmentConfig : List (String × JsValue) := []
  prodViewerEnvironmentConfig : List (String × JsValue) := []

/-- The token `this.repository.name` of a `GitHubRepository` rooted at `bp`. -/
def refRepoName (bp : List String) : JsValue := .ref (bp ++ ["this"]) ("name")

/-- The default keys of the `Repository` literal (including the leading
`name:` entry) before the caller spread is applied. -/
def githubRepoDefaults (name : String) : List (String × JsValue) :=
  [("name", .str name),
   ("autoInit", .boolean true),
   ("vulnerabilityAlerts", .boolean true),
   ("allowMergeCommit", .boolean false),
   ("allowSquashMerge", .boolean true),
   ("allowRebaseMerge", .boolean false),
   ("squashMergeCommitTitle", .str ("PR_TITLE")),
   ("squashMergeCommitMessage", .str ("BLANK"))]

def githubBypassActorsDefault : JsValue :=
  .arr (JsArr.ofList
    [.obj (JsObj.ofList
      [("actorType", .str ("RepositoryRole")),
       ("actorId", .num 5),
       ("bypassMode", .str ("always"))])])

def githubMainRulesetDefaults (bp : List String) : List (String × JsValue) :=
  [("repository", refRepoName bp),
   ("name", .str ("main")),
   ("enforcement", .str ("active")),
   ("target", .str ("branch")),
   ("conditions", .obj (JsObj.ofList
     [("refName", .obj (JsObj.ofList
       [("include", .arr (JsArr.ofList [.str ("~DEFAULT_BRANCH")])),
        ("exclude", .arr .nil)]))])),
   ("bypassActors", githubBypassActorsDefault),
   ("rules", .obj (JsObj.ofList
     [("deletion", .boolean true),
      ("requiredLinearHistory", .boolean true),
      ("pullRequest", .obj (JsObj.ofList
        [("requiredApprovingReviewCount", .num 1)])),
      ("nonFastForward", .boolean true)]))]

def githubReleaseRulesetDefaults (bp : List String) : List (String × JsValue) :=
  [("repository", refRepoName bp),
   ("name", .str ("release")),
   ("enforcement", .str ("active")),
   ("target", .str ("branch")),
   ("conditions", .obj (JsObj.ofList
     [("refName", .obj (JsObj.ofList
       [("include", .arr (JsArr.ofList [.str ("refs/heads/release/*")])),
        ("exclude", .arr .nil)]))])),
   ("bypassActors", githubBypassActorsDefault),
   ("rules", .obj (JsObj.ofList
     [("creation", .boolean true),
      ("update", .boolean true),
      ("deletion", .boolean true),
      ("nonFastForward", .boolean true)]))]

def githubBranchPolicyDefault : JsValue :=
  .obj (JsObj.ofList
    [("protectedBranches", .boolean false),
     ("customBranchPolicies", .boolean true)])

def githubDevViewerEnvDefaults (bp : List String) : List (String × JsValue) :=
  [("repository", refRepoName bp),
   ("environment", .str ("dev-viewer"))]

def githubDevEnvDefaults (bp : List String) : List (String × JsValue) :=
  [("repository", refRepoName bp),
   ("environment", .str ("dev")),
   ("canAdminsBypass", .boolean true),
   ("deploymentBranchPolicy", githubBranchPolicyDefault)]

def githubProdViewerEnvDefaults (bp : List String) : List (String × JsValue) :=
  [("repository", refRepoName bp),
   ("environment", .str ("prod-viewer")),
   ("canAdminsBypass", .boolean true),
   ("deploymentBranchPolicy", githubBranchPolicyDefault)]

def githubProdEnvDefaults (bp : List String) : List (String × JsValue) :=
  [("repository", refRepoName bp),
   ("environment", .str ("prod")),
   ("canAdminsBypass", .boolean true),
   ("deploymentBranchPolicy", githubBranchPolicyDefault)]

/-- `{name: config.name, ...defaults, ...config.repositoryConfig}` of the
`Repository` declaration. -/
def githubRepoThisConfig (cfg : GitHubRepositoryConfig) :
    List (String × JsValue) :=
  jsSpread (githubRepoDefaults cfg.name) cfg.repositoryConfig

def githubMainRulesetConfig (bp : List String) (cfg : GitHubRepositoryConfig) :
    List (String × JsValue) :=
  jsSpread (githubMainRulesetDefaults bp) cfg.mainRulesetConfig

def githubReleaseRulesetConfig (bp : List String)
    (cfg : GitHubRepositoryConfig) : List (String × JsValue) :=
  jsSpread (githubReleaseRulesetDefaults bp) cfg.releaseRulesetConfig

def githubDevViewerEnvConfig (bp : List String)
    (cfg : GitHubRepositoryConfig) : List (String × JsValue) :=
  jsSpread (githubDevViewerEnvDefaults bp) cfg.devViewerEnvironmentConfig

def githubDevEnvConfig (bp : List String) (cfg : GitHubRepositoryConfig) :
    List (String × JsValue) :=
  jsSpread (githubDevEnvDefaults bp) cfg.devEnvironmentConfig

def githubProdViewerEnvConfig (bp : List String)
    (cfg : GitHubRepositoryConfig) : List (String × JsValue) :=
  jsSpread (githubProdViewerEnvDefaults bp) cfg.prodViewerEnvironmentConfig

def githubProdEnvConfig (bp : List String) (cfg : GitHubRepositoryConfig) :
    List (String × JsValue) :=
  jsSpread (githubProdEnvDefaults bp) cfg.prodEnvironmentConfig

/-- All declarations of a `GitHubRepository` construct rooted at `bp`, in
construction order. -/
def githubRepositoryDecls (bp : List String) (cfg : GitHubRepositoryConfig) :
    List Decl :=
  { path := bp ++ ["this"], kind := "github_repository",
    config := JsObj.ofList (githubRepoThisConfig cfg) } ::
  ((match cfg.adminTeam with
    | some teamId =>
      [{ path := bp ++ ["admin-team"], kind := "github_team_repository",
         config := JsObj.ofList
           [("repository", refRepoName bp),
            ("teamId", teamId),
            ("permission", .str ("admin"))] }]
    | none => []) ++
   [{ path := bp ++ ["main-ruleset"], kind := "github_repository_ruleset",
      config := JsObj.ofList (githubMainRulesetConfig bp cfg) },
    { path := bp ++ ["release-ruleset"], kind := "github_repository_ruleset",
      config := JsObj.ofList (githubReleaseRulesetConfig bp cfg) },
    { path := bp ++ ["env-dev-viewer"],
      kind := "github_repository_environment",
      config := JsObj.ofList (githubDevViewerEnvConfig bp cfg) },
    { path := bp ++ ["env-dev"], kind := "github_repository_environment",
      config := JsObj.ofList (githubDevEnvConfig bp cfg) },
    { path := bp ++ ["env-dev-policy"],
      kind := "github_repository_environment_deployment_policy",
      config := JsObj.ofList
        [("repository", refRepoName bp),
         ("environment", .ref (bp ++ ["env-dev"]) ("environment")),
         ("branchPattern", .str ("main"))] },
    { path := bp ++ ["env-prod-viewer"],
      kind := "github_repository_environment",
      config := JsObj.ofList (githubProdViewerEnvConfig bp cfg) },
    { path := bp ++ ["env-prod-viewer-policy"],
      kind := "github_repository_environment_deployment_policy",
      config := JsObj.ofList
        [("repository", refRepoName bp),
         ("environment", .ref (bp ++ ["env-prod-viewer"]) ("environment")),
         ("branchPattern", .str ("release/*"))] },
    { path := bp ++ ["env-prod"], kind := "github_repository_environment",
      config := JsObj.ofList (githubProdEnvConfig bp cfg) },
    { path := bp ++ ["env-prod-policy"],
      kind := "github_repository_environment_deployment_policy",
      config := JsObj.ofList
        [("repository", refRepoName bp),
         ("environment", .ref (bp ++ ["env-prod"]) ("environment")),
         ("branchPattern", .str ("release/*"))] }])

/-! ## GcpProject (`src/gcp-project/index.ts`) -/

structure GcpProjectConfig where
  projectId : String
  displayName : Option String := none
  organizationId : String
  billingAccountId : String
  githubInfraRepo : String
  githubEnvironment : String
  terraformStateLocation : Option String := none
  googleBeta : String := "google-beta"
  dependsOn : List (List String) := []

/-- The `principal://.../subject/repo:<repo>:environment:<env>` IAM member
template of `GcpProject`; `<env>` is `githubEnvironment` plus an optional
suffix. -/
def gcpPrincipalMember (bp : List String) (cfg : GcpProjectConfig)
    (suffix : String) : JsValue :=
  .interp (JsArr.ofList
    [.str ("principal://iam.googleapis.com/"),
     .ref (bp ++ ["github-id-pool"]) ("name"),
     .str ("/subject/repo:"),
     .str cfg.githubInfraRepo,
     .str (":environment:"),
     .str (cfg.githubEnvironment ++ suffix)])

/-- All declarations of a `GcpProject` construct rooted at `bp`, in
construction order.  `this.project.projectId` tokens become deferred
references to the `this` declaration. -/
def gcpProjectDecls (bp : List String) (cfg : GcpProjectConfig) : List Decl :=
  let projRef : JsValue := .ref (bp ++ ["this"]) ("projectId")
  let viewerMember : JsValue := .ref (bp ++ ["terraform-viewer"]) ("member")
  [{ path := bp ++ ["this"], kind := "google_project",
     config := JsObj.ofList
       [("projectId", .str cfg.projectId),
        ("name", .str (cfg.displayName.getD cfg.projectId)),
        ("orgId", .str cfg.organizationId),
        ("billingAccount", .str cfg.billingAccountId),
        ("labels", .obj (JsObj.ofList [("firebase", .str ("enabled"))]))],
     dependsOn := cfg.dependsOn },
   { path := bp ++ ["firebase"], kind := "google_firebase_project",
     config := JsObj.ofList
       [("project", projRef), ("provider", .str cfg.googleBeta)] },
   { path := bp ++ ["tfstate"], kind := "google_storage_bucket",
     config := JsObj.ofList
       [("project", projRef),
        ("name", .interp (JsArr.ofList [projRef, .str ("-tfstate")])),
        ("location", .str (cfg.terraformStateLocation.getD ("US"))),
        ("storageClass", .str ("STANDARD")),
        ("versioning", .obj (JsObj.ofList [("enabled", .boolean true)]))] },
   { path := bp ++ ["resourcemanager"], kind := "google_project_service",
     config := JsObj.ofList
       [("project", projRef),
        ("service", .str ("cloudresourcemanager.googleapis.com"))] },
   { path := bp ++ ["dns"], kind := "google_project_service",
     config := JsObj.ofList
       [("project", projRef), ("service", .str ("dns.googleapis.com"))] },
   { path := bp ++ ["iam"], kind := "google_project_service",
     config := JsObj.ofList
       [("project", projRef), ("service", .str ("iam.googleapis.com"))] },
   { path := bp ++ ["github-id-pool"],
     kind := "google_iam_workload_identity_pool",
     config := JsObj.ofList
       [("project", projRef),
        ("workloadIdentityPoolId", .str ("github"))],
     dependsOn := [bp ++ ["iam"]] },
   { path := bp ++ ["github-id-provider"],
     kind := "google_iam_workload_identity_pool_provider",
     config := JsObj.ofList
       [("project", projRef),
        ("workloadIdentityPoolProviderId", .str ("github")),
        ("workloadIdentityPoolId",
         .ref (bp ++ ["github-id-pool"]) ("workloadIdentityPoolId")),
        ("attributeMapping", .obj (JsObj.ofList
          [("google.subject", .str ("assertion.sub")),
           ("attribute.actor", .str ("assertion.actor")),
           ("attribute.repository", .str ("assertion.repository")),
           ("attribute.repository_owner",
            .str ("assertion.repository_owner"))])),
        ("attributeCondition", .interp (JsArr.ofList
          [.str ("assertion.repository_owner == "),
           .str ((jsSplitIdx '/' cfg.githubInfraRepo 0).getD (""))])),
        ("oidc", .obj (JsObj.ofList
          [("issuerUri",
            .str ("https://token.actions.githubusercontent.com"))]))] },
   { path := bp ++ ["github-identity-provider-" ++ cfg.projectId],
     kind := "terraform_output",
     config := JsObj.ofList
       [("staticId", .boolean true),
        ("value", .ref (bp ++ ["github-id-provider"]) ("name"))] },
   { path := bp ++ ["kms-service"], kind := "google_project_service",
     config := JsObj.ofList
       [("project", projRef),
        ("service", .str ("cloudkms.googleapis.com"))] },
   { path := bp ++ ["terraform-keyring"], kind := "google_kms_key_ring",
     config := JsObj.ofList
       [("project", projRef),
        ("name", .str ("terraform")),
        ("location", .str ("global"))],
     dependsOn := [bp ++ ["kms-service"]] },
   { path := bp ++ ["terraform-key"], kind := "google_kms_crypto_key",
     config := JsObj.ofList
       [("keyRing", .ref (bp ++ ["terraform-keyring"]) ("id")),
        ("name", .str ("secrets"))] },
   { path := bp ++ ["terraform-admin"], kind := "google_service_account",
     config := JsObj.ofList
       [("project", projRef), ("accountId", .str ("terraform-admin"))] },
   { path := bp ++ ["terraform-admin-owner"],
     kind := "google_project_iam_member",
     config := JsObj.ofList
       [("project", projRef),
        ("role", .str ("roles/owner")),
        ("member", .ref (bp ++ ["terraform-admin"]) ("member"))] },
   { path := bp ++ ["terraform-admin-github-actions"],
     kind := "google_service_account_iam_member",
     config := JsObj.ofList
       [("serviceAccountId", .ref (bp ++ ["terraform-admin"]) ("name")),
        ("role", .str ("roles/iam.serviceAccountTokenCreator")),
        ("member", gcpPrincipalMember bp cfg (""))] },
   { path := bp ++ ["terraform-viewer"], kind := "google_service_account",
     config := JsObj.ofList
       [("project", projRef), ("accountId", .str ("terraform-viewer"))] },
   { path := bp ++ ["terraform-viewer-viewer"],
     kind := "google_project_iam_member",
     config := JsObj.ofList
       [("project", projRef),
        ("role", .str ("roles/viewer")),
        ("member", viewerMember)] },
   { path := bp ++ ["terraform-viewer-serviceUser"],
     kind := "google_project_iam_member",
     config := JsObj.ofList
       [("project", projRef),
        ("role", .str ("roles/serviceusage.serviceUsageConsumer")),
        ("member", viewerMember)] },
   { path := bp ++ ["terraform-viewer-key-decrypter"],
     kind := "google_kms_crypto_key_iam_member",
     config := JsObj.ofList
       [("cryptoKeyId", .ref (bp ++ ["terraform-key"]) ("id")),
        ("role", .str ("roles/cloudkms.cryptoOperator")),
        ("member", viewerMember)] },
   { path := bp ++ ["terraform-viewer-key-secretaccess"],
     kind := "google_project_iam_member",
     config := JsObj.ofList
       [("project", projRef),
        ("role", .str ("roles/secretmanager.secretAccessor")),
        ("member", viewerMember)] },
   { path := bp ++ ["terraform-viewer-github-actions"],
     kind := "google_service_account_iam_member",
     config := JsObj.ofList
       [("serviceAccountId", .ref (bp ++ ["terraform-viewer"]) ("name")),
        ("role", .str ("roles/iam.serviceAccountTokenCreator")),
        ("member", gcpPrincipalMember bp cfg ("-viewer"))] },
   { path := bp ++ ["gcp-testable-permissions"],
     kind := "data_google_iam_testable_permissions",
     config := JsObj.ofList
       [("fullResourceName", .interp (JsArr.ofList
         [.str ("//cloudresourcemanager.googleapis.com/projects/"),
          projRef])),
        ("stages", .arr (JsArr.ofList [.str ("GA"), .str ("BETA")]))] },
   { path := bp ++ ["iam-policy-viewer"],
     kind := "google_project_iam_custom_role",
     config := JsObj.ofList
       [("roleId", .str ("iamPolicyViewer")),
        ("title", .str ("IAM Policy Viewer")),
        ("project", projRef),
        ("permissions", .interp (JsArr.ofList
          [.str ("forExpressionForList val.name if endswith getIamPolicy"),
           .ref (bp ++ ["gcp-testable-permissions"]) ("permissions")]))] },
   { path := bp ++ ["terraform-viewer-iam-policy-viewer"],
     kind := "google_project_iam_member",
     config := JsObj.ofList
       [("project", projRef),
        ("role", .ref (bp ++ ["iam-policy-viewer"]) ("name")),
        ("member", viewerMember)] },
   { path := bp ++ ["terraform-viewer-tfstate"],
     kind := "google_storage_bucket_iam_member",
     config := JsObj.ofList
       [("bucket", .ref (bp ++ ["tfstate"]) ("name")),
        ("role", .str ("roles/storage.objectUser")),
        ("member", viewerMember)] }]

/-! ## Bootstrap (`src/bootstrap/index.ts`) -/

structure BootstrapConfig where
  name : String
  organizationId : String
  billingAccountId : String
  githubOrg : String
  domain : Option String := none
  appRepositoryConfig : List (String × JsValue) := []
  infraRepositoryConfig : List (String × JsValue) := []
  disableGitHubWorkflows : Bool := false
  googleBeta : String := "google-beta"

def bootstrapSysadminCfg (c : BootstrapConfig) : GcpProjectConfig :=
  { projectId := c.name ++ "-sysadmin",
    organizationId := c.organizationId,
    billingAccountId := c.billingAccountId,
    githubInfraRepo := c.githubOrg ++ "/" ++ c.name ++ "-infra",
    githubEnvironment := "prod",
    googleBeta := c.googleBeta }

def bootstrapDevCfg (c : BootstrapConfig) : GcpProjectConfig :=
  { projectId := c.name ++ "-dev",
    organizationId := c.organizationId,
    billingAccountId := c.billingAccountId,
    githubInfraRepo := c.githubOrg ++ "/" ++ c.name ++ "-infra",
    githubEnvironment := "dev",
    googleBeta := c.googleBeta }

def bootstrapProdCfg (c : BootstrapConfig) : GcpProjectConfig :=
  { projectId := c.name ++ "-prod",
    organizationId := c.organizationId,
    billingAccountId := c.billingAccountId,
    githubInfraRepo := c.githubOrg ++ "/" ++ c.name ++ "-infra",
    githubEnvironment := "prod",
    googleBeta := c.googleBeta }

/-- The three `GcpProject` child configurations instantiated by the
`Bootstrap` constructor, in construction order. -/
def bootstrapGcpConfigs (c : BootstrapConfig) : List GcpProjectConfig :=
  [bootstrapSysadminCfg c, bootstrapDevCfg c, bootstrapProdCfg c]

/-- The `github-admins` `Team` declaration. -/
def bootstrapTeamDecl (c : BootstrapConfig) : Decl :=
  { path := ["github-admins"], kind := "github_team",
    config := JsObj.ofList
      [("name", .str (c.name ++ "-admins")),
       ("description",
        .str ("Administrators for the " ++ c.name ++ " project")),
       ("privacy", .str ("closed"))] }

def bootstrapAppRepoCfg (c : BootstrapConfig) : GitHubRepositoryConfig :=
  { name := c.name,
    adminTeam := some (.ref (["github-admins"]) ("id")),
    repositoryConfig := c.appRepositoryConfig }

def bootstrapInfraRepoCfg (c : BootstrapConfig) : GitHubRepositoryConfig :=
  { name := c.name ++ "-infra",
    adminTeam := some (.ref (["github-admins"]) ("id")),
    repositoryConfig := c.infraRepositoryConfig,
    prodEnvironmentConfig :=
      [("reviewers", .arr (JsArr.ofList
        [.obj (JsObj.ofList
          [("teams", .arr (JsArr.ofList
            [.ref (["github-admins"]) ("id")]))])]))] }

/-- The two `RepositoryFile` declarations for the CI workflows (absent when
`disableGitHubWorkflows` is set).  `Fn.templatefile(path, templateVars)` is
modelled as a template carrying the file name and the four project-id /
project-number tokens of `templateVars`. -/
def bootstrapWorkflowDecls (c : BootstrapConfig) : List Decl :=
  if c.disableGitHubWorkflows then []
  else
    [{ path := ["infra-ci-pr"], kind := "github_repository_file",
       config := JsObj.ofList
         [("repository", .ref ([c.name ++ "-infra", "this"]) ("name")),
          ("file", .str (".github/workflows/pr.yaml")),
          ("content", .interp (JsArr.ofList
            [.str ("templatefile templates/infraWorkflowPr.yaml.tftpl"),
             .ref ([c.name ++ "-dev", "this"]) ("projectId"),
             .ref ([c.name ++ "-dev", "this"]) ("number"),
             .ref ([c.name ++ "-prod", "this"]) ("projectId"),
             .ref ([c.name ++ "-prod", "this"]) ("number")]))] },
     { path := ["infra-ci-main"], kind := "github_repository_file",
       config := JsObj.ofList
         [("repository", .ref ([c.name ++ "-infra", "this"]) ("name")),
          ("file", .str (".github/workflows/main.yaml")),
          ("content", .interp (JsArr.ofList
            [.str ("templatefile templates/infraWorkflowMain.yaml.tftpl"),
             .ref ([c.name ++ "-dev", "this"]) ("projectId"),
             .ref ([c.name ++ "-dev", "this"]) ("number"),
             .ref ([c.name ++ "-prod", "this"]) ("projectId"),
             .ref ([c.name ++ "-prod", "this"]) ("number")]))] }]

/-- The DNS-zone declarations (present only when `domain` is supplied). -/
def bootstrapDomainDecls (c : BootstrapConfig) : List Decl :=
  match c.domain with
  | none => []
  | some d =>
    [{ path := ["alpha-dns-zone"], kind := "google_dns_managed_zone",
       config := JsObj.ofList
         [("project", .ref ([c.name ++ "-dev", "this"]) ("projectId")),
          ("name", .str ("alpha-" ++ jsReplaceAllDots d)),
          ("dnsName", .str ("alpha." ++ d ++ "."))],
       dependsOn := [[c.name ++ "-dev", "dns"]] },
     { path := ["prod-dns-zone"], kind := "google_dns_managed_zone",
       config := JsObj.ofList
         [("project", .ref ([c.name ++ "-prod", "this"]) ("projectId")),
          ("name", .str (jsReplaceAllDots d)),
          ("dnsName", .str (d ++ "."))],
       dependsOn := [[c.name ++ "-prod", "dns"]] },
     { path := ["prod-alpha-ns-delegate"], kind := "google_dns_record_set",
       config := JsObj.ofList
         [("project", .ref ([c.name ++ "-prod", "this"]) ("projectId")),
          ("managedZone", .ref (["prod-dns-zone"]) ("name")),
          ("name", .str ("alpha." ++ d ++ ".")),
          ("type", .str ("NS")),
          ("rrdatas", .ref (["alpha-dns-zone"]) ("nameServers")),
          ("ttl", .num 21600)] }]

/-- The full declaration set produced by one `Bootstrap` composition, in
construction order; construct paths are relative to the `Bootstrap` node. -/
def bootstrapDecls (c : BootstrapConfig) : List Decl :=
  (bootstrapGcpConfigs c).flatMap
    (fun pc => gcpProjectDecls [pc.projectId] pc) ++
  [bootstrapTeamDecl c] ++
  githubRepositoryDecls [c.name] (bootstrapAppRepoCfg c) ++
  githubRepositoryDecls [c.name ++ "-infra"] (bootstrapInfraRepoCfg c) ++
  bootstrapWorkflowDecls c ++
  bootstrapDomainDecls c

/-- The finalized dependency-edge set of one `Bootstrap` composition. -/
def bootstrapEdges (c : BootstrapConfig) :
    List (List String × List String) :=
  declEdges (bootstrapDecls c)

/-! ## CurioStack (`src/curiostack/index.ts`, class `Apps`) -/

structure CurioStackConfig where
  project : String
  location : String
  domain : String
  githubRepo : String
  githubIdentityPoolId : Option String := none
  githubEnvironment : Option String := none
  terraformViewerServiceAccountId : Option String := none
  googleBeta : String := "google-beta"

/-- The guard of `Apps`: `!config.githubEnvironment &&
!config.project.includes("-")` (JS falsiness: an absent or empty
`githubEnvironment` counts as not set). -/
def appsThrowsEnvError (cfg : CurioStackConfig) : Bool :=
  jsFalsyStr cfg.githubEnvironment && !(jsIncludesDash cfg.project)

/-- The message of the error thrown by the `Apps` guard. -/
def appsEnvErrorMsg : String :=
  "project must include a `-` to determine the GitHub environment, or githubEnv must be provided"

/-- `const githubEnv = config.githubEnvironment ??
config.project.split("-")[1]` (line 128 of `src/curiostack/index.ts`). -/
def appsGithubEnv (cfg : CurioStackConfig) : Option String :=
  cfg.githubEnvironment <|> jsSplitIdx '-' cfg.project 1

/-- An optional string as a config value: JS `undefined` when absent. -/
def jsStrOrUndef : Option String → JsValue
  | none => .undef
  | some s => .str s

/-- The `:environment:` part of `githubEnvironmentIamMember`: the value
interpolated after the last `:` of the template literal on line 129. -/
def appsGithubEnvMemberEnvPart (cfg : CurioStackConfig) : JsValue :=
  jsStrOrUndef (appsGithubEnv cfg)

/-- `this.githubEnvironmentIamMember`: the template literal of line 129,
with the pool name still a deferred token. -/
def appsGithubEnvMember (cfg : CurioStackConfig) : JsValue :=
  .interp (JsArr.ofList
    [.str ("principal://iam.googleapis.com/"),
     .ref (["curiostack", "apps", "github-id-pool"]) ("name"),
     .str ("/subject/repo:"),
     .str cfg.githubRepo,
     .str (":environment:"),
     appsGithubEnvMemberEnvPart cfg])

/-- The six declarations the `Apps` constructor registers before the
environment check on line 122 runs, in construction order. -/
def appsPreCheckDecls (cfg : CurioStackConfig) : List Decl :=
  [{ path := ["curiostack", "apps", "service-artifactregistry"],
     kind := "google_project_service",
     config := JsObj.ofList
       [("service", .str ("artifactregistry.googleapis.com"))] },
   { path := ["curiostack", "apps", "service-run"],
     kind := "google_project_service",
     config := JsObj.ofList [("service", .str ("run.googleapis.com"))] },
   { path := ["curiostack", "apps", "service-cloudtrace"],
     kind := "google_project_service",
     config := JsObj.ofList
       [("service", .str ("cloudtrace.googleapis.com"))] },
   { path := ["curiostack", "apps", "service-monitoring"],
     kind := "google_project_service",
     config := JsObj.ofList
       [("service", .str ("monitoring.googleapis.com"))] },
   { path := ["curiostack", "apps", "cloudrun-deployer"],
     kind := "google_project_iam_custom_role",
     config := JsObj.ofList
       [("roleId", .str ("cloudRunDeployer")),
        ("title", .str ("Cloud Run Deployer")),
        ("permissions", .arr (JsArr.ofList
          [.str ("run.operations.get"),
           .str ("run.services.create"),
           .str ("run.services.get"),
           .str ("run.services.update")]))] },
   { path := ["curiostack", "apps", "github-id-pool"],
     kind := "data_google_iam_workload_identity_pool",
     config := JsObj.ofList
       [("workloadIdentityPoolId",
         .str (cfg.githubIdentityPoolId.getD ("github"))),
        ("provider", .str cfg.googleBeta)] }]

/-- The declarations the `Apps` constructor registers after the environment
check passes, in construction order. -/
def appsPostCheckDecls (cfg : CurioStackConfig) : List Decl :=
  [{ path := ["curiostack", "apps", "docker-registry"],
     kind := "google_artifact_registry_repository",
     config := JsObj.ofList
       [("repositoryId", .str ("docker")),
        ("location", .str cfg.location),
        ("format", .str ("DOCKER"))],
     dependsOn := [["curiostack", "apps", "service-artifactregistry"]] },
   { path := ["curiostack", "apps", "github-cloudrun-deploy"],
     kind := "google_project_iam_member",
     config := JsObj.ofList
       [("project", .str cfg.project),
        ("role",
         .ref (["curiostack", "apps", "cloudrun-deployer"]) ("name")),
        ("member", appsGithubEnvMember cfg)] },
   { path := ["curiostack", "apps", "docker-member-github"],
     kind := "google_artifact_registry_repository_iam_member",
     config := JsObj.ofList
       [("repository",
         .ref (["curiostack", "apps", "docker-registry"]) ("name")),
        ("location",
         .ref (["curiostack", "apps", "docker-registry"]) ("location")),
        ("role", .str ("roles/artifactregistry.writer")),
        ("member", appsGithubEnvMember cfg)] },
   { path := ["curiostack", "apps", "ghcr-repo"],
     kind := "google_artifact_registry_repository",
     config := JsObj.ofList
       [("repositoryId", .str ("ghcr")),
        ("location", .str cfg.location),
        ("format", .str ("DOCKER")),
        ("mode", .str ("REMOTE_REPOSITORY")),
        ("remoteRepositoryConfig", .obj (JsObj.ofList
          [("dockerRepository", .obj (JsObj.ofList
            [("customRepository", .obj (JsObj.ofList
              [("uri", .str ("https://ghcr.io"))]))]))]))],
     dependsOn := [["curiostack", "apps", "service-artifactregistry"]] }]

/-- One `Apps` composition pass: the declarations registered in the
caller's construct tree when the constructor returns or throws, paired with
the error, if any.  JS exceptions do not roll back the registrations made
before the `throw`. -/
def composeApps (cfg : CurioStackConfig) : List Decl × Option String :=
  if appsThrowsEnvError cfg then (appsPreCheckDecls cfg, some appsEnvErrorMsg)
  else (appsPreCheckDecls cfg ++ appsPostCheckDecls cfg, none)

/-! ## CurioStackService (`src/curiostack/service.ts`) -/

/-- A `dependsOn` array entry (`ITerraformDependable`).  `external` entries
are caller-provided; the other constructors are the values the
`CurioStackService` constructor pushes. -/
inductive Dependable where
  | external : String → Dependable
  | runService : Dependable
  | secretAccessor : String → Dependable
  | otelBucketReader : Dependable

/-- The fields of the `CurioStack` value that `CurioStackService`
dereferences.  `runService` is whatever object the curiostack exposes there;
only `project` and the secret list shapes matter for the claims. -/
structure CurioStackRef where
  project : String
  runService : Dependable := .runService

structure CurioStackServiceConfig where
  name : String
  environment : Option String := none
  envSecrets : List (String × String × String) := []
  dependsOn : Option (List Dependable) := none
  curiostack : CurioStackRef

/-- `config.environment ?? project.split("-")[1]`: the default value of the
`CONFIG_ENV` environment variable (line 110 of `src/curiostack/service.ts`). -/
def serviceConfigEnv (environment : Option String) (project : String) :
    Option String :=
  environment <|> jsSplitIdx '-' project 1

/-- The contents of the array aliased by `const dependsOn =
config.dependsOn ?? []` once the constructor finishes: the caller's entries,
then `config.curiostack.runService` (line 105), then one
`SecretManagerSecretIamMember` per `envSecrets` entry (line 167), then the
`otel-bucket-reader` `StorageBucketIamMember` (line 175).  When
`config.dependsOn` is an array, the pushes mutate that same caller-owned
array in place. -/
def serviceDependsOnAfter (cfg : CurioStackServiceConfig) : List Dependable :=
  let d1 := cfg.dependsOn.getD [] ++ [cfg.curiostack.runService]
  let d2 := cfg.envSecrets.foldl
    (fun acc s => acc ++ [Dependable.secretAccessor s.1]) d1
  d2 ++ [Dependable.otelBucketReader]

/-! ## CurioStackHosting (`src/curiostack/hosting.ts`) -/

/-- The property names an instance built by the exported `CurioStack`
constructor carries: `node` from the `Construct` base class plus the five
fields assigned on lines 61-67 of `src/curiostack/index.ts`.  The
constructor never assigns a `config` property. -/
def curioStackInstanceFieldNames : List String :=
  ["node", "project", "dockerRepository", "ghcrRepository",
   "githubEnvironmentIamMember", "runService"]

/-- Running the exported `CurioStack` constructor: it throws the `Apps`
environment error, or returns an instance carrying exactly
`curioStackInstanceFieldNames`. -/
def curioStackInstance (cfg : CurioStackConfig) : Except String (List String) :=
  if appsThrowsEnvError cfg then .error appsEnvErrorMsg
  else .ok curioStackInstanceFieldNames

/-- The construct id computed on line 24 of `src/curiostack/hosting.ts`:
`config.displayName.replace(" ", "-").toLowerCase()`. -/
def hostingChildId (displayName : String) : String :=
  ⟨(jsReplaceFirstSpace displayName.toList).map Char.toLower⟩

/-- One `CurioStackHosting` composition against a curiostack instance given
by its property names: line 26 destructures `config.curiostack.config`,
which is a TypeError when the instance has no `config` property (property
access on a missing name yields `undefined`, and destructuring `undefined`
throws).  When the property exists the pass proceeds and is summarised by
its computed construct id. -/
def composeHosting (instanceFields : List String) (displayName : String) :
    Except String String :=
  if instanceFields.contains "config" then .ok (hostingChildId displayName)
  else .error "TypeError: cannot destructure config.curiostack.config, it is undefined"

/-! ## Construct-tree registration (for logical-id uniqueness) -/

/-- Modelled from the spec: the child registration of the external
`constructs` library base class (not under `src/`); §7: two declarations
within the same Construct registering the same `logicalId` fail immediately
on the second registration, whatever their kinds.  Children are
`(logicalId, kind)` pairs; only the id is checked. -/
def registerChild (children : List (String × String))
    (logicalId kind : String) : Except String (List (String × String)) :=
  if children.any (fun c => c.1 == logicalId) then
    .error ("DuplicateIdentifierError: " ++ logicalId)
  else .ok (children ++ [(logicalId, kind)])

/-- Registering a `GcpProject` under a scope: `super(scope,
config.projectId)` on line 112 of `src/gcp-project/index.ts` uses the
project id as the logical id. -/
def registerGcpProject (children : List (String × String))
    (cfg : GcpProjectConfig) : Except String (List (String × String)) :=
  registerChild children cfg.projectId "GcpProject"

/-! ## Concrete inputs used by witnesses and counterexamples -/

/-- A config supplying an empty-string `githubEnvironment` and a project id
without `-`. -/
def c1cex : CurioStackConfig :=
  { project := "acme", location := "us-central1", domain := "acme.dev",
    githubRepo := "acme/acme", githubEnvironment := some "" }

/-- A config supplying no `githubEnvironment` and a project id without `-`. -/
def c5cex : CurioStackConfig :=
  { project := "acme", location := "us-central1", domain := "acme.dev",
    githubRepo := "acme/acme" }

/-- A project id with two `-` separators and no explicit environment. -/
def c6cex : CurioStackConfig :=
  { project := "my-project-dev", location := "us-central1",
    domain := "acme.dev", githubRepo := "acme/acme" }

/-- A single-separator project id with no explicit environment. -/
def c6w : CurioStackConfig :=
  { project := "acme-dev", location := "us-central1", domain := "acme.dev",
    githubRepo := "acme/acme" }

def c2wRules : JsValue := .obj (JsObj.ofList [("deletion", .boolean false)])

def c2wCfg : GitHubRepositoryConfig :=
  { name := "acme", mainRulesetConfig := [("rules", c2wRules)] }

def c3wCfg : GcpProjectConfig :=
  { projectId := "acme-dev", organizationId := "123456",
    billingAccountId := "ABCDEF", githubInfraRepo := "acme/acme-infra",
    githubEnvironment := "dev" }

/-- The `tfstate` `StorageBucket` declaration of the witness `GcpProject`
composition: its config embeds deferred references to the `this` project. -/
def c3wDecl : Decl :=
  (gcpProjectDecls (["acme-dev"]) c3wCfg).get ⟨2, by decide⟩

def c4w : BootstrapConfig :=
  { name := "acme", organizationId := "123456",
    billingAccountId := "ABCDEF", githubOrg := "acme" }

def c9wCfg : CurioStackServiceConfig :=
  { name := "svc", envSecrets := [("DB_PASS", ("db-pass", "1"))],
    dependsOn := some ([]), curiostack := { project := "acme-dev" } }

def c10w : CurioStackConfig :=
  { project := "acme-dev", location := "us-central1", domain := "acme.dev",
    githubRepo := "acme/acme" }

/-! ## Helper lemmas -/

theorem splitChar_shape (sep : Char) (l : List Char) :
    ∃ t, splitChar sep l = (l.takeWhile (fun c => c ≠ sep)) :: t := by
  induction l with
  | nil => exact ⟨[], rfl⟩
  | cons c cs ih =>
    obtain ⟨t, ht⟩ := ih
    by_cases hc : c = sep
    · subst hc
      exact ⟨cs.takeWhile (fun x => x ≠ c) :: t, by
        simp [splitChar, ht, List.takeWhile_cons]⟩
    · exact ⟨t, by simp [splitChar, ht, List.takeWhile_cons, hc]⟩

theorem splitChar_get_second (sep : Char) (l : List Char) (h : sep ∈ l) :
    (splitChar sep l).get? 1 =
      some (((l.dropWhile (fun c => c ≠ sep)).tail).takeWhile
        (fun c => c ≠ sep)) := by
  induction l with
  | nil => cases h
  | cons c cs ih =>
    by_cases hc : c = sep
    · subst hc
      obtain ⟨t, ht⟩ := splitChar_shape c cs
      rw [List.dropWhile_cons_of_neg (by simp)]
      simp [splitChar, ht]
    · have hcs : sep ∈ cs := by
        cases h with
        | head => exact absurd rfl hc
        | tail _ hmem => exact hmem
      have hih := ih hcs
      obtain ⟨t, ht⟩ := splitChar_shape sep cs
      rw [ht] at hih
      rw [List.dropWhile_cons_of_pos (by simp [hc])]
      simp only [splitChar, ht, if_neg hc]
      simpa using hih

theorem jsSplitIdx_second (s : String) (h : jsIncludesDash s = true) :
    jsSplitIdx '-' s 1 = some (secondDashSegment s) := by
  have hm : '-' ∈ s.toList := by simpa [jsIncludesDash] using h
  unfold jsSplitIdx secondDashSegment
  rw [splitChar_get_second _ _ hm]
  rfl

theorem jsFalsyStr_iff (o : Option String) :
    jsFalsyStr o = true ↔ (o = none ∨ o = some ("")) := by
  cases o with
  | none => simp [jsFalsyStr]
  | some s => simp [jsFalsyStr]

theorem lookup_filter_of_some (o d : List (String × JsValue)) (k : String)
    (v : JsValue) (h : o.lookup k = some v) :
    (d.filter (fun p => (o.lookup p.1).isNone)).lookup k = none := by
  induction d with
  | nil => rfl
  | cons p rest ih =>
    obtain ⟨a, b⟩ := p
    by_cases hp : (o.lookup a).isNone
    · rw [List.filter_cons_of_pos (by simpa using hp)]
      have hka : (k == a) = false := by
        by_contra hne
        have : k = a := beq_iff_eq.mp (by
          cases hkb : k == a with
          | true => rfl
          | false => exact absurd hkb hne)
        subst this
        rw [h] at hp
        simp at hp
      simp [List.lookup_cons, hka, ih]
    · rw [List.filter_cons_of_neg (by simpa using hp)]
      exact ih

theorem lookup_filter_of_none (o d : List (String × JsValue)) (k : String)
    (h : o.lookup k = none) :
    (d.filter (fun p => (o.lookup p.1).isNone)).lookup k = d.lookup k := by
  induction d with
  | nil => rfl
  | cons p rest ih =>
    obtain ⟨a, b⟩ := p
    by_cases hka : (k == a) = true
    · have : k = a := beq_iff_eq.mp hka
      subst this
      rw [List.filter_cons_of_pos (by simp [h])]
      simp [List.lookup_cons]
    · have hkf : (k == a) = false := by
        cases hkb : k == a with
        | true => exact absurd hkb hka
        | false => rfl
      by_cases hp : (o.lookup a).isNone
      · rw [List.filter_cons_of_pos (by simpa using hp)]
        simp [List.lookup_cons, hkf, ih]
      · rw [List.filter_cons_of_neg (by simpa using hp)]
        simp [List.lookup_cons, hkf, ih]

/-- Override-wins: a key supplied by the caller keeps exactly the caller's
value through `{...defaults, ...override}`. -/
theorem jsSpread_lookup_some (d o : List (String × JsValue)) (k : String)
    (v : JsValue) (h : o.lookup k = some v) :
    (jsSpread d o).lookup k = some v := by
  unfold jsSpread
  rw [List.lookup_append, lookup_filter_of_some o d k v h, h]
  rfl

/-- Defaults survive: a key the caller does not supply keeps the default
value through `{...defaults, ...override}`. -/
theorem jsSpread_lookup_none (d o : List (String × JsValue)) (k : String)
    (h : o.lookup k = none) :
    (jsSpread d o).lookup k = d.lookup k := by
  unfold jsSpread
  rw [List.lookup_append, lookup_filter_of_none o d k h, h]
  cases d.lookup k <;> rfl

theorem mem_declEdges_of_ref {decls : List Decl} {d : Decl}
    {p : List String} (hd : d ∈ decls) (hp : p ∈ refsOfJsObj d.config) :
    (p, d.path) ∈ declEdges decls := by
  unfold declEdges
  exact List.mem_flatMap.2 ⟨d, hd, by
    unfold declEdgeList
    exact List.mem_append.2 (Or.inl (List.mem_map.2 ⟨p, hp, rfl⟩))⟩

theorem mem_declEdges_of_dep {decls : List Decl} {d : Decl}
    {p : List String} (hd : d ∈ decls) (hp : p ∈ d.dependsOn) :
    (p, d.path) ∈ declEdges decls := by
  unfold declEdges
  exact List.mem_flatMap.2 ⟨d, hd, by
    unfold declEdgeList
    exact List.mem_append.2 (Or.inr (List.mem_map.2 ⟨p, hp, rfl⟩))⟩

theorem foldl_push_eq_map {α β : Type} (f : α → β) (l : List α) :
    ∀ init : List β,
      l.foldl (fun acc s => acc ++ [f s]) init = init ++ l.map f := by
  induction l with
  | nil => intro init; simp
  | cons a t ih => intro init; simp [List.foldl_cons, ih]

/-! ## Claim C1 -/

/-- C1 counterexample: with `githubEnvironment` supplied as the empty string
and a `-`-free project id, the `Apps` constructor still raises the
environment error, so "error iff no githubEnvironment is supplied and
project has no separator" fails as stated. -/
theorem curiostack_env_error_iff_cex :
    ¬ (((composeApps c1cex).2 = some appsEnvErrorMsg) ↔
       (c1cex.githubEnvironment = none ∧
         jsIncludesDash c1cex.project = false)) := by decide

/-- C1 (amended): constructing the `Apps` child of a CurioStack raises the
environment `ConfigurationError` if and only if the supplied
`githubEnvironment` is absent or the empty string (JS falsiness) and
`config.project` contains no `-`; every config with a non-empty
`githubEnvironment`, or with at least one `-` in `project`, does not raise
this error. -/
theorem curiostack_env_error_iff (cfg : CurioStackConfig) :
    (composeApps cfg).2 = some appsEnvErrorMsg ↔
      ((cfg.githubEnvironment = none ∨ cfg.githubEnvironment = some ("")) ∧
        jsIncludesDash cfg.project = false) := by
  unfold composeApps
  by_cases h : appsThrowsEnvError cfg = true
  · rw [if_pos h]
    constructor
    · intro _
      unfold appsThrowsEnvError at h
      rw [Bool.and_eq_true] at h
      exact ⟨(jsFalsyStr_iff _).mp h.1, by simpa using h.2⟩
    · intro _
      rfl
  · rw [if_neg h]
    constructor
    · intro hcontra
      exact Option.noConfusion hcontra
    · intro hrhs
      exfalso
      apply h
      unfold appsThrowsEnvError
      rw [Bool.and_eq_true]
      exact ⟨(jsFalsyStr_iff _).mpr hrhs.1, by simp [hrhs.2]⟩

/-! ## Claim C5 -/

/-- C5 counterexample: when the environment check fails, the six
declarations constructed before the `throw` (four `ProjectService`s, the
deployer role, the identity-pool lookup) are still registered in the
construct tree, so the failure is partially applied. -/
theorem apps_partial_registration_cex :
    (composeApps c5cex).2 = some appsEnvErrorMsg ∧
      (composeApps c5cex).1.map (fun d => d.path) =
        [["curiostack", "apps", "service-artifactregistry"],
         ["curiostack", "apps", "service-run"],
         ["curiostack", "apps", "service-cloudtrace"],
         ["curiostack", "apps", "service-monitoring"],
         ["curiostack", "apps", "cloudrun-deployer"],
         ["curiostack", "apps", "github-id-pool"]] :=
  ⟨rfl, rfl⟩

/-- C5 (amended): when composing fails on the environment check, the error
is raised after the six pre-check declarations were registered; exactly
those six remain registered (none of the post-check declarations), and the
registered set is not empty. -/
theorem apps_partial_registration (cfg : CurioStackConfig)
    (h : appsThrowsEnvError cfg = true) :
    composeApps cfg = (appsPreCheckDecls cfg, some appsEnvErrorMsg) ∧
      (appsPreCheckDecls cfg).length = 6 ∧
      (composeApps cfg).1 ≠ [] := by
  refine ⟨by simp [composeApps, h], rfl, ?_⟩
  simp [composeApps, h, appsPreCheckDecls]

/-- C5 witness: a concrete config failing the check, with the partial
registration exhibited through the amended theorem. -/
theorem apps_partial_registration_witness :
    appsThrowsEnvError c5cex = true ∧
      composeApps c5cex = (appsPreCheckDecls c5cex, some appsEnvErrorMsg) :=
  ⟨by decide, (apps_partial_registration c5cex (by decide)).1⟩

/-! ## Claim C6 -/

/-- C6 counterexample: for the project id `my-project-dev` (which ends in
`-dev`) with no explicit environment, the derived environment is
`project` — the segment after the first `-` — not the suffix `dev`. -/
theorem curiostack_env_suffix_cex :
    appsGithubEnv c6cex ≠ some ("dev") ∧
      appsGithubEnv c6cex = some ("project") ∧
      serviceConfigEnv none c6cex.project = some ("project") := by decide

/-- C6 (amended): when `githubEnvironment` is not supplied and the project
id contains at least one `-`, the derived GitHub environment (also embedded
as the `:environment:` part of `githubEnvironmentIamMember`) and the default
`CONFIG_ENV` of a `CurioStackService` both equal the second `-`-separated
segment of the project id (the text between the first separator and the
next, not the final suffix). -/
theorem curiostack_env_second_segment (cfg : CurioStackConfig)
    (h1 : cfg.githubEnvironment = none)
    (h2 : jsIncludesDash cfg.project = true) :
    appsGithubEnv cfg = some (secondDashSegment cfg.project) ∧
      appsGithubEnvMemberEnvPart cfg = .str (secondDashSegment cfg.project) ∧
      serviceConfigEnv none cfg.project =
        some (secondDashSegment cfg.project) := by
  have hs := jsSplitIdx_second cfg.project h2
  have henv : appsGithubEnv cfg = some (secondDashSegment cfg.project) := by
    unfold appsGithubEnv
    rw [h1]
    simpa using hs
  refine ⟨henv, ?_, ?_⟩
  · unfold appsGithubEnvMemberEnvPart
    rw [henv]
    rfl
  · unfold serviceConfigEnv
    simpa using hs

/-- C6 witness: for project id `acme-dev` with no explicit environment the
derived environment is the second segment, here `dev`. -/
theorem curiostack_env_second_segment_witness :
    c6w.githubEnvironment = none ∧ jsIncludesDash c6w.project = true ∧
      appsGithubEnv c6w = some (secondDashSegment c6w.project) ∧
      secondDashSegment c6w.project = "dev" :=
  ⟨rfl, by decide, (curiostack_env_second_segment c6w rfl (by decide)).1,
    by decide⟩

/-! ## Claim C2 -/

/-- C2: config merging in `GitHubRepository` is shallow with override-wins:
for each of the seven merge sites (repository, main/release rulesets, four
environments), every key the caller supplies maps to exactly the caller's
value in the declared config (nested objects are replaced whole, never
deep-merged), and every key the caller does not supply keeps the default. -/
theorem githubRepository_merge_override_wins (bp : List String)
    (cfg : GitHubRepositoryConfig) (k : String) (v : JsValue) :
    ((cfg.repositoryConfig.lookup k = some v →
        (githubRepoThisConfig cfg).lookup k = some v) ∧
      (cfg.repositoryConfig.lookup k = none →
        (githubRepoThisConfig cfg).lookup k =
          (githubRepoDefaults cfg.name).lookup k)) ∧
    ((cfg.mainRulesetConfig.lookup k = some v →
        (githubMainRulesetConfig bp cfg).lookup k = some v) ∧
      (cfg.mainRulesetConfig.lookup k = none →
        (githubMainRulesetConfig bp cfg).lookup k =
          (githubMainRulesetDefaults bp).lookup k)) ∧
    ((cfg.releaseRulesetConfig.lookup k = some v →
        (githubReleaseRulesetConfig bp cfg).lookup k = some v) ∧
      (cfg.releaseRulesetConfig.lookup k = none →
        (githubReleaseRulesetConfig bp cfg).lookup k =
          (githubReleaseRulesetDefaults bp).lookup k)) ∧
    ((cfg.devEnvironmentConfig.lookup k = some v →
        (githubDevEnvConfig bp cfg).lookup k = some v) ∧
      (cfg.devEnvironmentConfig.lookup k = none →
        (githubDevEnvConfig bp cfg).lookup k =
          (githubDevEnvDefaults bp).lookup k)) ∧
    ((cfg.devViewerEnvironmentConfig.lookup k = some v →
        (githubDevViewerEnvConfig bp cfg).lookup k = some v) ∧
      (cfg.devViewerEnvironmentConfig.lookup k = none →
        (githubDevViewerEnvConfig bp cfg).lookup k =
          (githubDevViewerEnvDefaults bp).lookup k)) ∧
    ((cfg.prodEnvironmentConfig.lookup k = some v →
        (githubProdEnvConfig bp cfg).lookup k = some v) ∧
      (cfg.prodEnvironmentConfig.lookup k = none →
        (githubProdEnvConfig bp cfg).lookup k =
          (githubProdEnvDefaults bp).lookup k)) ∧
    ((cfg.prodViewerEnvironmentConfig.lookup k = some v →
        (githubProdViewerEnvConfig bp cfg).lookup k = some v) ∧
      (cfg.prodViewerEnvironmentConfig.lookup k = none →
        (githubProdViewerEnvConfig bp cfg).lookup k =
          (githubProdViewerEnvDefaults bp).lookup k)) :=
  ⟨⟨fun h => jsSpread_lookup_some _ _ _ _ h,
    fun h => jsSpread_lookup_none _ _ _ h⟩,
   ⟨fun h => jsSpread_lookup_some _ _ _ _ h,
    fun h => jsSpread_lookup_none _ _ _ h⟩,
   ⟨fun h => jsSpread_lookup_some _ _ _ _ h,
    fun h => jsSpread_lookup_none _ _ _ h⟩,
   ⟨fun h => jsSpread_lookup_some _ _ _ _ h,
    fun h => jsSpread_lookup_none _ _ _ h⟩,
   ⟨fun h => jsSpread_lookup_some _ _ _ _ h,
    fun h => jsSpread_lookup_none _ _ _ h⟩,
   ⟨fun h => jsSpread_lookup_some _ _ _ _ h,
    fun h => jsSpread_lookup_none _ _ _ h⟩,
   ⟨fun h => jsSpread_lookup_some _ _ _ _ h,
    fun h => jsSpread_lookup_none _ _ _ h⟩⟩

/-- C2 witness: a caller-supplied `rules` object replaces the default
`rules` object of the main ruleset entirely, while an unsupplied key keeps
its default. -/
theorem githubRepository_merge_override_wins_witness :
    (githubMainRulesetConfig (["acme"]) c2wCfg).lookup ("rules") =
        some c2wRules ∧
      (githubMainRulesetConfig (["acme"]) c2wCfg).lookup ("enforcement") =
        some (.str ("active")) :=
  ⟨((githubRepository_merge_override_wins (["acme"]) c2wCfg ("rules")
      c2wRules).2.1).1 rfl,
   (((githubRepository_merge_override_wins (["acme"]) c2wCfg ("enforcement")
      JsValue.undef).2.1).2 rfl).trans rfl⟩

/-! ## Claim C3 -/

/-- C3: implicit-edge completeness and ordering for a `GcpProject`
composition: every declaration whose config embeds a deferred reference
gets an edge from the referenced producer, every explicit `dependsOn` entry
gets an edge from the listed producer, and every topological order of the
finalized edge set places the producer strictly before that declaration. -/
theorem gcpProject_implicit_edges (bp : List String)
    (cfg : GcpProjectConfig) (d : Decl)
    (hd : d ∈ gcpProjectDecls bp cfg) :
    (∀ p ∈ refsOfJsObj d.config,
      (p, d.path) ∈ declEdges (gcpProjectDecls bp cfg) ∧
        ∀ ord, IsTopoOrder ord (declEdges (gcpProjectDecls bp cfg)) →
          ord.indexOf p < ord.indexOf d.path) ∧
    (∀ p ∈ d.dependsOn,
      (p, d.path) ∈ declEdges (gcpProjectDecls bp cfg) ∧
        ∀ ord, IsTopoOrder ord (declEdges (gcpProjectDecls bp cfg)) →
          ord.indexOf p < ord.indexOf d.path) := by
  constructor
  · intro p hp
    exact ⟨mem_declEdges_of_ref hd hp,
      fun ord hord => hord _ (mem_declEdges_of_ref hd hp)⟩
  · intro p hp
    exact ⟨mem_declEdges_of_dep hd hp,
      fun ord hord => hord _ (mem_declEdges_of_dep hd hp)⟩

/-- C3 witness: in a concrete `GcpProject` composition the `tfstate` bucket
declaration embeds a reference to the `this` project, and the finalized
edge set contains the corresponding edge. -/
theorem gcpProject_implicit_edges_witness :
    c3wDecl ∈ gcpProjectDecls (["acme-dev"]) c3wCfg ∧
      (["acme-dev", "this"]) ∈ refsOfJsObj c3wDecl.config ∧
      ((["acme-dev", "this"]), c3wDecl.path) ∈
        declEdges (gcpProjectDecls (["acme-dev"]) c3wCfg) :=
  have hmem : c3wDecl ∈ gcpProjectDecls (["acme-dev"]) c3wCfg :=
    List.get_mem _ 2 (by decide)
  have href : (["acme-dev", "this"]) ∈ refsOfJsObj c3wDecl.config := by
    decide
  ⟨hmem, href,
    ((gcpProject_implicit_edges (["acme-dev"]) c3wCfg c3wDecl hmem).1 _
      href).1⟩

/-! ## Claim C4 -/

/-- C4: composing `Bootstrap` is deterministic: identical configs yield
identical declaration sets and identical dependency-edge sets — the
composition layer is a pure function of the config, with no randomness or
timestamps. -/
theorem bootstrap_deterministic (c1 c2 : BootstrapConfig) (h : c1 = c2) :
    bootstrapDecls c1 = bootstrapDecls c2 ∧
      bootstrapEdges c1 = bootstrapEdges c2 := by
  subst h
  exact ⟨rfl, rfl⟩

/-- C4 witness: a concrete double composition with the same config. -/
theorem bootstrap_deterministic_witness :
    bootstrapDecls c4w = bootstrapDecls c4w ∧
      bootstrapEdges c4w = bootstrapEdges c4w :=
  bootstrap_deterministic c4w c4w rfl

/-! ## Claim C7 -/

/-- C7: `Bootstrap` identifier derivation: the three `GcpProject` children
carry project ids `N-sysadmin`, `N-dev`, `N-prod`, each with
`githubInfraRepo` `O/N-infra`; the two `GitHubRepository` children are
named `N` and `N-infra`; the `Team` is named `N-admins` — all pure
functions of the config. -/
theorem bootstrap_identifier_derivation (c : BootstrapConfig) :
    (bootstrapGcpConfigs c).map (fun pc => pc.projectId) =
        [c.name ++ "-sysadmin", c.name ++ "-dev", c.name ++ "-prod"] ∧
      (bootstrapGcpConfigs c).map (fun pc => pc.githubInfraRepo) =
        [c.githubOrg ++ "/" ++ c.name ++ "-infra",
         c.githubOrg ++ "/" ++ c.name ++ "-infra",
         c.githubOrg ++ "/" ++ c.name ++ "-infra"] ∧
      [(bootstrapAppRepoCfg c).name, (bootstrapInfraRepoCfg c).name] =
        [c.name, c.name ++ "-infra"] ∧
      jsObjLookup (bootstrapTeamDecl c).config ("name") =
        some (.str (c.name ++ "-admins")) :=
  ⟨rfl, rfl, rfl, rfl⟩

/-! ## Claim C8 -/

/-- C8: registering two children with the same `logicalId` under the same
parent always raises the duplicate-identifier error immediately on the
second registration, regardless of kind equality; in particular two
`GcpProject`s constructed with the same `projectId` under one scope. -/
theorem duplicate_logical_id_error :
    (∀ (children : List (String × String)) (id k1 k2 : String)
        (s1 : List (String × String)),
      registerChild children id k1 = Except.ok s1 →
        registerChild s1 id k2 =
          Except.error ("DuplicateIdentifierError: " ++ id)) ∧
    (∀ (children : List (String × String)) (c1 c2 : GcpProjectConfig)
        (s1 : List (String × String)),
      c1.projectId = c2.projectId →
        registerGcpProject children c1 = Except.ok s1 →
          registerGcpProject s1 c2 =
            Except.error ("DuplicateIdentifierError: " ++ c2.projectId)) := by
  have gen : ∀ (children : List (String × String)) (id k1 k2 : String)
      (s1 : List (String × String)),
      registerChild children id k1 = Except.ok s1 →
        registerChild s1 id k2 =
          Except.error ("DuplicateIdentifierError: " ++ id) := by
    intro children id k1 k2 s1 h
    unfold registerChild at h ⊢
    split at h
    · exact Except.noConfusion h
    · have hs : s1 = children ++ [(id, k1)] :=
        (Except.ok.injEq _ _ ▸ h).symm
      subst hs
      rw [if_pos]
      simp [List.any_append]
  refine ⟨gen, ?_⟩
  intro children c1 c2 s1 he h1
  unfold registerGcpProject at h1 ⊢
  rw [← he]
  exact gen children c1.projectId ("GcpProject") ("GcpProject") s1 h1

/-- C8 witness: registering id `acme-dev` twice, with different kinds, under
an empty scope. -/
theorem duplicate_logical_id_error_witness :
    registerChild ([]) ("acme-dev") ("GcpProject") =
        Except.ok ([("acme-dev", "GcpProject")]) ∧
      registerChild ([("acme-dev", "GcpProject")]) ("acme-dev")
          ("StorageBucket") =
        Except.error ("DuplicateIdentifierError: " ++ "acme-dev") :=
  ⟨rfl, duplicate_logical_id_error.1 ([]) ("acme-dev") ("GcpProject")
    ("StorageBucket") ([("acme-dev", "GcpProject")]) rfl⟩

/-! ## Claim C9 -/

/-- C9: constructing a `CurioStackService` mutates the caller-supplied
`dependsOn` array in place: whenever `config.dependsOn` is an array, after
construction that same array holds the caller's entries followed by
`curiostack.runService`, one secret-accessor IAM member per `envSecrets`
entry, and the otel-bucket reader — so it never equals its original
contents. -/
theorem curioStackService_mutates_dependsOn (cfg : CurioStackServiceConfig)
    (arr : List Dependable) (h : cfg.dependsOn = some arr) :
    serviceDependsOnAfter cfg =
        arr ++ [cfg.curiostack.runService] ++
          cfg.envSecrets.map (fun s => Dependable.secretAccessor s.1) ++
          [Dependable.otelBucketReader] ∧
      serviceDependsOnAfter cfg ≠ arr := by
  have key : serviceDependsOnAfter cfg =
      arr ++ [cfg.curiostack.runService] ++
        cfg.envSecrets.map (fun s => Dependable.secretAccessor s.1) ++
        [Dependable.otelBucketReader] := by
    unfold serviceDependsOnAfter
    rw [h]
    simp [foldl_push_eq_map]
  refine ⟨key, ?_⟩
  intro hcontra
  rw [key] at hcontra
  have hlen := congrArg List.length hcontra
  simp [List.length_append] at hlen

/-- C9 witness: with an initially empty caller array and one secret, the
caller's array afterwards holds the three pushed entries. -/
theorem curioStackService_mutates_dependsOn_witness :
    c9wCfg.dependsOn = some ([]) ∧
      serviceDependsOnAfter c9wCfg =
        [Dependable.runService, Dependable.secretAccessor ("DB_PASS"),
         Dependable.otelBucketReader] ∧
      serviceDependsOnAfter c9wCfg ≠ ([] : List Dependable) :=
  ⟨rfl,
   ((curioStackService_mutates_dependsOn c9wCfg ([]) rfl).1).trans rfl,
   (curioStackService_mutates_dependsOn c9wCfg ([]) rfl).2⟩

/-! ## Claim C10 -/

/-- C10: for every instance produced by the exported `CurioStack`
constructor, constructing `CurioStackHosting` against it always fails at
composition time: line 26 destructures `config.curiostack.config`, and the
constructor never assigns a `config` property, so the access yields
`undefined` and destructuring throws. -/
theorem curioStackHosting_always_fails (cfg : CurioStackConfig)
    (instanceFields : List String) (displayName : String)
    (h : curioStackInstance cfg = Except.ok instanceFields) :
    composeHosting instanceFields displayName =
      Except.error
        ("TypeError: cannot destructure config.curiostack.config, it is undefined") := by
  unfold curioStackInstance at h
  split at h
  · exact Except.noConfusion h
  · have hs : instanceFields = curioStackInstanceFieldNames :=
      (Except.ok.injEq _ _ ▸ h).symm
    subst hs
    rfl

/-- C10 witness: a concrete successful `CurioStack` construction whose
instance makes `CurioStackHosting` fail. -/
theorem curioStackHosting_always_fails_witness :
    curioStackInstance c10w = Except.ok curioStackInstanceFieldNames ∧
      composeHosting curioStackInstanceFieldNames ("My Site") =
        Except.error
          ("TypeError: cannot destructure config.curiostack.config, it is undefined") :=
  ⟨rfl, curioStackHosting_always_fails c10w curioStackInstanceFieldNames
    ("My Site") rfl⟩
